import Mathlib

set_option synthInstance.maxHeartbeats 1000000
set_option maxRecDepth 4000

/-!
Shallow embedding of the Steadyum runner coordination loop
(src/crates/steadyum-runner/src/runner.rs).

The physics engine (rapier) is treated as an external black box, following
the repository layout: the pipeline step, kinematic-animation evaluation,
connected-component analysis, region assignment and watch-data computation
are parameters of the loop (bundled in `Externals`).  Machine floats of the
source are embedded as rationals; handle allocation of the rapier arenas is
embedded as a monotonic counter (a fresh handle is never equal to any
previously allocated handle, which is the only property the runner relies
on).  Fallible or panicking paths (the unimplemented RunSteps arm, the
indexing of body2uuid) are embedded with `Except Unit`, where
`Except.error ()` marks a process abort.
-/

/-- External identity of a body (uuid::Uuid in the source). -/
abbrev Uuid := Nat

/-- Arena handle of a rigid body (rapier RigidBodyHandle). -/
abbrev BodyHandle := Nat

/-- Association-list lookup, modelling HashMap get / Coarena get. -/
def alLookup {α : Type} (k : Nat) : List (Nat × α) → Option α
  | [] => none
  | (k2, v) :: rest => if k = k2 then some v else alLookup k rest

/-- Association-list insert-or-replace, modelling HashMap insert. -/
def alInsert {α : Type} (k : Nat) (v : α) : List (Nat × α) → List (Nat × α)
  | [] => [(k, v)]
  | (k2, v2) :: rest => if k = k2 then (k, v) :: rest else (k2, v2) :: alInsert k v rest

/-- Association-list removal, modelling HashMap remove. -/
def alRemove {α : Type} (k : Nat) (l : List (Nat × α)) : List (Nat × α) :=
  l.filter (fun p => p.1 ≠ k)

/-- Rapier interaction groups: a membership mask and a filter mask (u32 bitmasks). -/
structure InteractionGroups where
  memberships : Nat
  filterMask : Nat
deriving DecidableEq

/-- InteractionGroups::none() in rapier: empty memberships and filter. -/
def InteractionGroups.noGroups : InteractionGroups := ⟨0, 0⟩

/-- InteractionGroups::all() in rapier: full u32 masks, the default of a collider builder. -/
def InteractionGroups.allGroups : InteractionGroups := ⟨4294967295, 4294967295⟩

/-- Rapier pair test: two colliders may interact iff each membership mask
meets the filter mask of the other. -/
def InteractionGroups.test (a b : InteractionGroups) : Bool :=
  (Nat.land a.memberships b.filterMask ≠ 0) && (Nat.land b.memberships a.filterMask ≠ 0)

/-- Modelled from the spec: watch.rs is not part of the provided sources; it
exports two disjoint collision groups, MAIN_GROUP for primary colliders and
WATCH_GROUP for watch-proxy colliders, so that a proxy filters in main
colliders only and never meets another proxy. -/
def MAIN_GROUP : Nat := 1

/-- Modelled from the spec: the group of watch-proxy colliders, disjoint from
MAIN_GROUP (see MAIN_GROUP). -/
def WATCH_GROUP : Nat := 2

/-- A collision shape, kept opaque except for the one observation the runner
makes of it: the radius of its local bounding sphere. -/
structure SharedShape where
  localBoundingSphereRadius : ℚ
deriving DecidableEq

/-- SharedShape::ball: the local bounding sphere of a ball of radius r has radius r. -/
def SharedShape.ball (r : ℚ) : SharedShape := ⟨r⟩

/-- Rigid body type of the source (rapier RigidBodyType). -/
inductive RigidBodyType where
  | Dynamic
  | Fixed
  | KinematicPositionBased
  | KinematicVelocityBased
deriving DecidableEq

/-- Position of a body; the runner never computes with coordinates, so a
rational triple stands for the isometry. -/
abbrev Pose := ℚ × ℚ × ℚ

/-- A velocity vector. -/
abbrev Vect := ℚ × ℚ × ℚ

/-- Modelled from the spec: kinematic.rs is not part of the provided sources;
a KinematicAnimations value carries an optional linear track and an optional
angular track, evaluated by an external function. Tracks are opaque here. -/
structure KinematicAnimations where
  linear : Option Nat
  angular : Option Nat
deriving DecidableEq

/-- Warm per-tick data of a body (steadyum_api_types::objects::WarmBodyObject). -/
structure WarmBodyObject where
  timestamp : Nat
  position : Pose
  linvel : Vect
  angvel : Vect
deriving DecidableEq

/-- Cold rarely-changing data of a body (steadyum_api_types::objects::ColdBodyObject);
only the fields the runner reads are embedded. -/
structure ColdBodyObject where
  body_type : RigidBodyType
  shape : SharedShape
  animations : KinematicAnimations
deriving DecidableEq

/-- A rigid body as built by make_builders and stored in the body arena. -/
structure RigidBody where
  body_type : RigidBodyType
  position : Pose
  linvel : Vect
  angvel : Vect
  can_sleep : Bool
  next_kinematic_position : Option Pose
deriving DecidableEq

/-- A collider as stored in the collider arena, with its parent body handle. -/
structure Collider where
  shape : SharedShape
  density : ℚ
  collision_groups : InteractionGroups
  solver_groups : InteractionGroups
  parent : Option BodyHandle
deriving DecidableEq

/-- Rapier ColliderBuilder: the fields the runner sets, with rapier defaults. -/
structure ColliderBuilder where
  shape : SharedShape
  density : ℚ := 1
  collision_groups : InteractionGroups := InteractionGroups.allGroups
  solver_groups : InteractionGroups := InteractionGroups.allGroups
deriving DecidableEq

/-- ColliderBuilder::new. -/
def ColliderBuilder.new (s : SharedShape) : ColliderBuilder := { shape := s }

/-- ColliderBuilder::ball. -/
def ColliderBuilder.ball (r : ℚ) : ColliderBuilder := { shape := SharedShape.ball r }

/-- ColliderBuilder::density. -/
def ColliderBuilder.withDensity (b : ColliderBuilder) (d : ℚ) : ColliderBuilder :=
  { b with density := d }

/-- ColliderBuilder::collision_groups. -/
def ColliderBuilder.withCollisionGroups (b : ColliderBuilder) (g : InteractionGroups) :
    ColliderBuilder :=
  { b with collision_groups := g }

/-- ColliderBuilder::solver_groups. -/
def ColliderBuilder.withSolverGroups (b : ColliderBuilder) (g : InteractionGroups) :
    ColliderBuilder :=
  { b with solver_groups := g }

/-- The rigid-body arena: bodies keyed by handle, plus a fresh-handle counter.
Rapier never hands out a handle equal to that of a previously removed body
(generational indices); the monotonic counter embeds exactly that guarantee. -/
structure RigidBodySet where
  bodies : List (BodyHandle × RigidBody)
  next_handle : Nat
deriving DecidableEq

/-- RigidBodySet::insert: allocates a fresh handle. -/
def RigidBodySet.insert (s : RigidBodySet) (rb : RigidBody) : BodyHandle × RigidBodySet :=
  (s.next_handle, { bodies := s.bodies ++ [(s.next_handle, rb)], next_handle := s.next_handle + 1 })

/-- The collider arena. -/
structure ColliderSet where
  colliders : List (Nat × Collider)
  next_handle : Nat
deriving DecidableEq

/-- ColliderSet::insert_with_parent. -/
def ColliderSet.insert_with_parent (cs : ColliderSet) (b : ColliderBuilder)
    (parent : BodyHandle) : ColliderSet :=
  { colliders := cs.colliders ++
      [(cs.next_handle,
        { shape := b.shape, density := b.density, collision_groups := b.collision_groups,
          solver_groups := b.solver_groups, parent := some parent })],
    next_handle := cs.next_handle + 1 }

/-- An impulse joint between two bodies; the joint data itself is opaque. -/
structure ImpulseJoint where
  body1 : BodyHandle
  body2 : BodyHandle
  data : Nat
deriving DecidableEq

/-- The impulse-joint arena. -/
structure ImpulseJointSet where
  joints : List (Nat × ImpulseJoint)
  next_handle : Nat
deriving DecidableEq

/-- ImpulseJointSet::insert. -/
def ImpulseJointSet.insert (s : ImpulseJointSet) (h1 h2 : BodyHandle) (d : Nat) :
    ImpulseJointSet :=
  { joints := s.joints ++ [(s.next_handle, { body1 := h1, body2 := h2, data := d })],
    next_handle := s.next_handle + 1 }

/-- Modelled from the spec: watch.rs is not part of the provided sources; a
WatchedObject is the shadow record of a body owned elsewhere, carrying its
identity and the iteration counter used for staleness. -/
structure WatchedObject where
  uuid : Uuid
  iteration : Nat
deriving DecidableEq

/-- Integration parameters; the runner reads only the timestep dt. -/
structure IntegrationParameters where
  dt : ℚ
deriving DecidableEq

/-- Region bounds (steadyum_api_types::simulation::SimulationBounds), opaque
except for being a stable persistence and messaging key. -/
abbrev SimulationBounds := Nat

/-- SimulationBounds::runner_key. -/
def SimulationBounds.runner_key (b : SimulationBounds) : Nat := b

/-- SimulationBounds::watch_kvs_key. -/
def SimulationBounds.watch_kvs_key (b : SimulationBounds) : Nat := b

/-- The process-wide simulation state of the runner (struct SimulationState in
runner.rs). Broad phase, narrow phase, islands, ccd solver and query pipeline
are owned by the black-box engine and carry no observable state here. -/
structure SimulationState where
  step_id : Nat
  is_running : Bool
  bodies : RigidBodySet
  colliders : ColliderSet
  gravity : Vect
  params : IntegrationParameters
  impulse_joints : ImpulseJointSet
  body2animations : List (Nat × KinematicAnimations)
  body2uuid : List (BodyHandle × Uuid)
  uuid2body : List (Uuid × BodyHandle)
  sim_bounds : SimulationBounds
  watched_objects : List (BodyHandle × WatchedObject)
deriving DecidableEq

/-- SimulationState::default() with the gravity assignment done at startup. -/
def SimulationState.init : SimulationState :=
  { step_id := 0
    is_running := false
    bodies := { bodies := [], next_handle := 0 }
    colliders := { colliders := [], next_handle := 0 }
    gravity := (0, -981/100, 0)
    params := { dt := 1/60 }
    impulse_joints := { joints := [], next_handle := 0 }
    body2animations := []
    body2uuid := []
    uuid2body := []
    sim_bounds := 0
    watched_objects := [] }

/-- One body entry of an AssignIsland message. -/
structure AssignIslandBody where
  uuid : Uuid
  cold : ColdBodyObject
  warm : WarmBodyObject
deriving DecidableEq

/-- One joint entry of an AssignIsland message
(steadyum_api_types::messages::ImpulseJointAssignment). -/
structure ImpulseJointAssignment where
  body1 : Uuid
  body2 : Uuid
  joint : Nat
deriving DecidableEq

/-- Inbound command messages of the runner (RunnerMessage). -/
inductive RunnerMessage where
  | AssignRegion (region : SimulationBounds) (time_origin : Nat)
  | RunSteps (curr_step : Nat) (num_steps : Nat)
  | AssignIsland (bodies : List AssignIslandBody)
      (impulse_joints : List ImpulseJointAssignment)
  | MoveObject
  | UpdateColdObject
  | StartStop (running : Bool)
deriving DecidableEq

/-- make_builders in runner.rs: builds the rigid body and the primary
collider builder from cold plus warm data. -/
def make_builders (cold : ColdBodyObject) (warm : WarmBodyObject) :
    RigidBody × ColliderBuilder :=
  ({ body_type := cold.body_type
     position := warm.position
     linvel := warm.linvel
     angvel := warm.angvel
     can_sleep := false
     next_kinematic_position := none },
   ColliderBuilder.new cold.shape)

/-- RigidBodySet::remove with remove_attached_colliders = true: removes the
body, every collider parented to it, and every impulse joint attached to it.
The identity maps and the animation arena are left untouched, as in the
source call. -/
def SimulationState.removeBody (s : SimulationState) (h : BodyHandle) : SimulationState :=
  { s with
    bodies := { s.bodies with bodies := alRemove h s.bodies.bodies }
    colliders := { s.colliders with
      colliders := s.colliders.colliders.filter (fun p => p.2.parent != some h) }
    impulse_joints := { s.impulse_joints with
      joints := s.impulse_joints.joints.filter
        (fun p => p.2.body1 != h && p.2.body2 != h) } }

/-- The body of the AssignIsland per-body loop in process_message: tear down
any existing body with the same uuid, then insert the new body, its primary
collider, its watch-proxy collider, and record it in the identity maps and
the animation arena. -/
def insertIslandBody (s : SimulationState) (data : AssignIslandBody) : SimulationState :=
  let s :=
    match alLookup data.uuid s.uuid2body with
    | some handle =>
        let s := s.removeBody handle
        { s with watched_objects := alRemove handle s.watched_objects }
    | none => s
  let bc := make_builders data.cold data.warm
  let body := bc.1
  let collider := bc.2
  let watch_shape_radius := collider.shape.localBoundingSphereRadius * (11 / 10)
  let ins := s.bodies.insert body
  let body_handle := ins.1
  let s := { s with bodies := ins.2 }
  let s := { s with colliders := s.colliders.insert_with_parent collider body_handle }
  let watch_collider :=
    (((ColliderBuilder.ball watch_shape_radius).withDensity 0).withCollisionGroups
        ⟨WATCH_GROUP, MAIN_GROUP⟩).withSolverGroups InteractionGroups.noGroups
  let s := { s with colliders := s.colliders.insert_with_parent watch_collider body_handle }
  { s with
    body2uuid := alInsert body_handle data.uuid s.body2uuid
    uuid2body := alInsert data.uuid body_handle s.uuid2body
    body2animations := alInsert body_handle data.cold.animations s.body2animations }

/-- The AssignIsland per-joint loop in process_message: a joint is inserted
only when both endpoint uuids resolve to local handles; otherwise it is
skipped. -/
def insertIslandJoints (s : SimulationState) (joints : List ImpulseJointAssignment) :
    SimulationState :=
  joints.foldl
    (fun acc data =>
      match alLookup data.body1 acc.uuid2body, alLookup data.body2 acc.uuid2body with
      | some h1, some h2 =>
          { acc with impulse_joints := acc.impulse_joints.insert h1 h2 data.joint }
      | _, _ => acc)
    s

/-- The effect of one AssignIsland joint entry on the joint arena, given the
identity map in force while the joint loop runs: inserted when both
endpoints resolve, skipped otherwise. -/
def jointFoldStep (u2b : List (Uuid × BodyHandle)) (acc : ImpulseJointSet)
    (d : ImpulseJointAssignment) : ImpulseJointSet :=
  match alLookup d.body1 u2b, alLookup d.body2 u2b with
  | some h1, some h2 => acc.insert h1 h2 d.joint
  | _, _ => acc

/-- process_message in runner.rs.  The RunSteps arm of the source is a
literal todo!() panic (its intended body is present only as a comment and
refers to loop locals that are out of scope there), so it is embedded as a
process abort. -/
def process_message (s : SimulationState) (m : RunnerMessage) :
    Except Unit SimulationState :=
  match m with
  | RunnerMessage.AssignRegion region time_origin =>
      Except.ok { s with sim_bounds := region, step_id := time_origin }
  | RunnerMessage.RunSteps _ _ => Except.error ()
  | RunnerMessage.AssignIsland bodies impulse_joints =>
      Except.ok (insertIslandJoints (bodies.foldl insertIslandBody s) impulse_joints)
  | RunnerMessage.MoveObject => Except.ok s
  | RunnerMessage.UpdateColdObject => Except.ok s
  | RunnerMessage.StartStop running => Except.ok { s with is_running := running }

/-- Sequential processing of a list of drained messages (the try_recv drain
loop, and also the replay of delayed messages after assignment). -/
def processAll (s : SimulationState) : List RunnerMessage → Except Unit SimulationState
  | [] => Except.ok s
  | m :: rest =>
    match process_message s m with
    | Except.ok s2 => processAll s2 rest
    | Except.error e => Except.error e

/-- The physics fields that physics_pipeline.step takes mutable borrows of in
run_simulation; the step can rewrite these and nothing else. -/
structure PhysicsCore where
  bodies : RigidBodySet
  colliders : ColliderSet
  impulse_joints : ImpulseJointSet
deriving DecidableEq

/-- Events sent by apply_and_send_region_assignments to neighbor runners;
their payload is opaque to the coordination loop. -/
abbrev MigrationEvent := Nat

/-- Modelled from the spec: region_assignment.rs is not part of the provided
sources; a RegionAssignments value pairs components with destination regions
and has an empty default. -/
structure RegionAssignments where
  assignments : List (List Uuid × SimulationBounds)
deriving DecidableEq

/-- RegionAssignments::default(). -/
def RegionAssignments.empty : RegionAssignments := ⟨[]⟩

/-- The external collaborators of the coordination loop, out of scope for the
runner core: the physics pipeline step, animation evaluation, watch-data
computation, connected-component analysis and region assignment.  The loop
theorems are universally quantified over them. -/
structure Externals where
  physStep : PhysicsCore → PhysicsCore
  evalAnim : KinematicAnimations → ℚ → Pose → Pose
  computeWatchData : SimulationState → Nat → List WatchedObject
  calcConnectedComponents : SimulationState → List (List BodyHandle)
  calcRegionAssignments : SimulationState → List (List BodyHandle) → RegionAssignments
  applyAndSendRegionAssignments :
    SimulationState → RegionAssignments → SimulationState × List MigrationEvent

/-- A trivial instance of the external collaborators, used to evaluate the
loop on concrete inputs. -/
def Externals.base : Externals :=
  { physStep := id
    evalAnim := fun _ _ p => p
    computeWatchData := fun _ _ => []
    calcConnectedComponents := fun _ => []
    calcRegionAssignments := fun _ _ => RegionAssignments.empty
    applyAndSendRegionAssignments := fun sim _ => (sim, []) }

/-- Wellformedness of the external region-assignment application, as its call
contract states it: it removes migrating bodies and sends messages, and does
not touch the step counter or the integration parameters. -/
structure Externals.Lawful (ext : Externals) : Prop where
  applyRA_step_id : ∀ sim ra, (ext.applyAndSendRegionAssignments sim ra).1.step_id = sim.step_id
  applyRA_params : ∀ sim ra, (ext.applyAndSendRegionAssignments sim ra).1.params = sim.params

/-- The physics_pipeline.step call: the black-box step rewrites exactly the
mutably borrowed physics fields of the state. -/
def applyPhysicsStep (f : PhysicsCore → PhysicsCore) (s : SimulationState) : SimulationState :=
  let c := f { bodies := s.bodies, colliders := s.colliders, impulse_joints := s.impulse_joints }
  { s with bodies := c.bodies, colliders := c.colliders, impulse_joints := c.impulse_joints }

/-- The animation-update pass after a physics step: every body carrying a
non-empty animation gets its next kinematic position from the evaluated
track at the current physical time; bodies without a track, and arena
entries whose body no longer exists, are left untouched. -/
def updateAnimations (ev : KinematicAnimations → ℚ → Pose → Pose) (t : ℚ)
    (s : SimulationState) : SimulationState :=
  s.body2animations.foldl
    (fun acc p =>
      if p.2.linear.isNone && p.2.angular.isNone then acc
      else
        match alLookup p.1 acc.bodies.bodies with
        | some rb =>
            { acc with bodies := { acc.bodies with
                bodies := alInsert p.1
                  { rb with next_kinematic_position := some (ev p.2 t rb.position) }
                  acc.bodies.bodies } }
        | none => acc)
    s

/-- One iteration of the stepping loop: advance the physics world one
timestep, increment the step id, then run the animation pass at the new
physical time. -/
def stepOnce (ext : Externals) (s : SimulationState) : SimulationState :=
  let s := applyPhysicsStep ext.physStep s
  let s := { s with step_id := s.step_id + 1 }
  updateAnimations ext.evalAnim ((s.step_id : ℚ) * s.params.dt) s

/-- The stepping loop of a tick: runs while the pending counter is positive,
so it performs exactly the pending number of iterations and nothing else; in
particular it never drains or processes a command. -/
def runBatch (ext : Externals) : Nat → SimulationState → SimulationState
  | 0, s => s
  | n + 1, s => runBatch ext n (stepOnce ext s)

/-- A per-body warm snapshot destined for the persistence layer
(BodyPositionObject). -/
structure BodyPositionObject where
  uuid : Uuid
  timestamp : Nat
  position : Pose
deriving DecidableEq

/-- The warm-set record written once per completed batch (WarmBodyObjectSet). -/
structure WarmBodyObjectSet where
  timestamp : Nat
  objects : List BodyPositionObject
deriving DecidableEq

/-- The all_data collection pass of the loop: a warm snapshot of every live
body that is not a watched object, in arena order.  The source indexes
body2uuid with the body handle, which panics when the entry is missing, so
that path is an abort here. -/
def buildAllDataAux (s : SimulationState) :
    List (BodyHandle × RigidBody) → Except Unit (List BodyPositionObject)
  | [] => Except.ok []
  | (h, rb) :: rest =>
    if (alLookup h s.watched_objects).isSome then buildAllDataAux s rest
    else
      match alLookup h s.body2uuid with
      | none => Except.error ()
      | some uuid =>
        match buildAllDataAux s rest with
        | Except.ok tail =>
            Except.ok ({ uuid := uuid, timestamp := s.step_id, position := rb.position } :: tail)
        | Except.error e => Except.error e

/-- See buildAllDataAux. -/
def buildAllData (s : SimulationState) : Except Unit (List BodyPositionObject) :=
  buildAllDataAux s s.bodies.bodies

/-- The observable effects a tick sends out of the process: persistence
writes, the step acknowledgment, migration messages and the pacing sleep. -/
inductive RunnerOutput where
  | putWarm (key : Nat) (warmSet : WarmBodyObjectSet)
  | putWatch (key : Nat) (objects : List WatchedObject)
  | ackSteps (origin : Nat) (stopped : Bool)
  | migration (event : MigrationEvent)
  | sleep (duration : ℚ)
deriving DecidableEq

/-- The loop-local state of run_simulation: the simulation state plus the
pending-step counter, the watch iteration counter, the runner key used as
the ack origin, and the commands currently queued on the transport. -/
structure LoopState where
  sim : SimulationState
  steps_to_run : Nat
  watch_iteration_id : Nat
  runner_key : Nat
  queue : List RunnerMessage
deriving DecidableEq

/-- Everything a main-loop iteration does after the drain loop
(runner.rs lines 138 to 262): the early continue when no steps are pending;
otherwise the stepping loop and component analysis when running (or zeroing
the counter when stopped), the warm-data and watch-data collection, the
region-assignment application, the persistence writes and the single
acknowledgment when the counter has reached zero, and the pacing sleep.
It takes no message input at all: commands cannot reach the middle of a
batch. -/
def tickAfterDrain (ext : Externals) (simd : SimulationState) (pending : Nat)
    (runnerKey : Nat) (watchId : Nat) (arrivals : List RunnerMessage) (elapsed : ℚ) :
    Except Unit (LoopState × List RunnerOutput) :=
  if pending = 0 then
    Except.ok
      ({ sim := simd, steps_to_run := pending, watch_iteration_id := watchId,
         runner_key := runnerKey, queue := arrivals }, [])
  else
    let stepped :=
      if simd.is_running then
        let sim2 := runBatch ext pending simd
        let cc := ext.calcConnectedComponents sim2
        (sim2, pending, ext.calcRegionAssignments sim2 cc)
      else
        (simd, 0, RegionAssignments.empty)
    let sim2 := stepped.1
    let num_steps_run := stepped.2.1
    let region_assignments := stepped.2.2
    match buildAllData sim2 with
    | Except.error e => Except.error e
    | Except.ok all_data =>
      let watch_data := ext.computeWatchData sim2 num_steps_run
      let applied := ext.applyAndSendRegionAssignments sim2 region_assignments
      let sim3 := applied.1
      let migrations := applied.2
      let steps_to_run := 0
      let persistOuts :=
        if steps_to_run = 0 then
          [RunnerOutput.putWarm sim3.sim_bounds.runner_key
             { timestamp := sim3.step_id, objects := all_data },
           RunnerOutput.putWatch sim3.sim_bounds.watch_kvs_key watch_data]
        else []
      let ackOuts :=
        if steps_to_run = 0 then [RunnerOutput.ackSteps runnerKey false] else []
      let time_limit := ((max num_steps_run 1 : Nat) : ℚ) * sim3.params.dt
      let sleepOuts :=
        if elapsed < time_limit / 2 then [RunnerOutput.sleep (time_limit - elapsed)] else []
      Except.ok
        ({ sim := sim3, steps_to_run := steps_to_run, watch_iteration_id := watchId,
           runner_key := runnerKey, queue := arrivals },
         migrations.map RunnerOutput.migration ++ persistOuts ++ ackOuts ++ sleepOuts)

/-- One iteration of the main runner loop: bump the watch iteration counter,
drain and process every currently queued command (a panic in a handler
aborts the process), then hand over to the command-free remainder of the
tick.  Messages arriving while the tick runs are exactly the queue of the
next iteration. -/
def tick (ext : Externals) (ls : LoopState) (arrivals : List RunnerMessage) (elapsed : ℚ) :
    Except Unit (LoopState × List RunnerOutput) :=
  match processAll ls.sim ls.queue with
  | Except.error e => Except.error e
  | Except.ok simd =>
      tickAfterDrain ext simd ls.steps_to_run ls.runner_key (ls.watch_iteration_id + 1)
        arrivals elapsed

/-- The blocking wait for region assignment at startup: every message up to
the first AssignRegion is buffered in arrival order; the AssignRegion itself
installs the region bounds and the time origin; the remainder of the stream
stays queued on the transport.  An exhausted stream leaves the state
unassigned with everything buffered. -/
def waitForAssignment (sim : SimulationState) :
    List RunnerMessage → SimulationState × List RunnerMessage × List RunnerMessage
  | [] => (sim, [], [])
  | m :: rest =>
    match m with
    | RunnerMessage.AssignRegion region time_origin =>
        ({ sim with sim_bounds := region, step_id := time_origin }, [], rest)
    | _ =>
        let r := waitForAssignment sim rest
        (r.1, m :: r.2.1, r.2.2)

/-- The startup sequence around the wait: buffer until assigned, then replay
the buffered messages in arrival order through process_message. -/
def startupPhase (sim : SimulationState) (incoming : List RunnerMessage) :
    Except Unit (SimulationState × List RunnerMessage) :=
  let r := waitForAssignment sim incoming
  match processAll r.1 r.2.1 with
  | Except.ok s2 => Except.ok (s2, r.2.2)
  | Except.error e => Except.error e

deriving instance DecidableEq for Except

/-- The sleep events among the outputs of a tick. -/
def sleepOutputsOf (outs : List RunnerOutput) : List RunnerOutput :=
  outs.filter fun o =>
    match o with
    | RunnerOutput.sleep _ => true
    | _ => false

/-- The pacing rule as the spec words it: the loop sleeps iff the elapsed
time is under half the nominal duration of the steps just run (steps_run
times the timestep), and it sleeps for the shortfall relative to that
nominal duration.  Stated only for comparison with the implemented rule,
which replaces steps_run by max steps_run 1. -/
def specSleepOutputs (dt : ℚ) (steps_run : Nat) (elapsed : ℚ) : List RunnerOutput :=
  if elapsed < ((steps_run : ℚ) * dt) / 2 then
    [RunnerOutput.sleep ((steps_run : ℚ) * dt - elapsed)]
  else []

/-- A concrete cold object used to evaluate the embedding on closed inputs. -/
def exCold : ColdBodyObject :=
  { body_type := RigidBodyType.Dynamic, shape := ⟨1⟩, animations := ⟨none, none⟩ }

/-- A concrete warm object used to evaluate the embedding on closed inputs. -/
def exWarm : WarmBodyObject :=
  { timestamp := 0, position := (0, 0, 0), linvel := (0, 0, 0), angvel := (0, 0, 0) }

/-- A concrete AssignIsland body entry with uuid 0. -/
def exBody : AssignIslandBody := { uuid := 0, cold := exCold, warm := exWarm }

/-- The state of a fresh runner after loading exBody once. -/
def exLoaded : SimulationState :=
  (process_message SimulationState.init
      (RunnerMessage.AssignIsland [exBody] [])).toOption.getD SimulationState.init

/-- A loop state holding a half-finished batch of 2 pending steps when an
AssignRegion command with time origin 50 is queued. -/
def C2ls : LoopState :=
  { sim := { SimulationState.init with is_running := true }, steps_to_run := 2,
    watch_iteration_id := 0, runner_key := 0,
    queue := [RunnerMessage.AssignRegion 9 50] }

/-- The result of the reassignment tick on C2ls. -/
def C2out : LoopState × List RunnerOutput :=
  (tick Externals.base C2ls [] 99).toOption.getD (C2ls, [])

/-- A loop state with one queued command and no pending steps, used to
observe deferral of commands that arrive during the tick. -/
def C4ls : LoopState :=
  { sim := SimulationState.init, steps_to_run := 0, watch_iteration_id := 0,
    runner_key := 0, queue := [RunnerMessage.StartStop true] }

/-- The result of a tick on C4ls while RunnerMessage.MoveObject arrives. -/
def C4out : LoopState × List RunnerOutput :=
  (tick Externals.base C4ls [RunnerMessage.MoveObject] 99).toOption.getD (C4ls, [])

/-- A stopped loop state with a pending batch of 3 steps. -/
def C6ls : LoopState :=
  { sim := SimulationState.init, steps_to_run := 3, watch_iteration_id := 0,
    runner_key := 0, queue := [] }

/-- The result of the batch tick on C6ls. -/
def C6out : LoopState × List RunnerOutput :=
  (tick Externals.base C6ls [] 1).toOption.getD (C6ls, [])

/-- A concrete AssignIsland body entry with uuid 3 and bounding radius 2. -/
def C7body : AssignIslandBody :=
  { uuid := 3,
    cold := { body_type := RigidBodyType.Dynamic, shape := ⟨2⟩, animations := ⟨none, none⟩ },
    warm := exWarm }

/-- The arrival stream of a runner that receives a RunSteps and a StartStop
before its region assignment. -/
def C8in : List RunnerMessage :=
  [RunnerMessage.RunSteps 0 1, RunnerMessage.StartStop true,
   RunnerMessage.AssignRegion 7 5]

/-- A stopped loop state with one pending step, reaching the pacing code
with zero steps run. -/
def C9ls : LoopState :=
  { sim := SimulationState.init, steps_to_run := 1, watch_iteration_id := 0,
    runner_key := 0, queue := [] }

/-- The result of the zero-step tick on C9ls at elapsed time 0. -/
def C9out : LoopState × List RunnerOutput :=
  (tick Externals.base C9ls [] 0).toOption.getD (C9ls, [])

/-- Two island bodies delivered in one AssignIsland message. -/
def C10bodies : List AssignIslandBody :=
  [{ uuid := 5, cold := exCold, warm := exWarm },
   { uuid := 6, cold := exCold, warm := exWarm }]

/-- A joint referencing both bodies of C10bodies. -/
def C10joints : List ImpulseJointAssignment := [{ body1 := 5, body2 := 6, joint := 42 }]

theorem Externals.base_lawful : Externals.base.Lawful :=
  ⟨fun _ _ => rfl, fun _ _ => rfl⟩

theorem alLookup_alInsert_self {α : Type} (k : Nat) (v : α) (l : List (Nat × α)) :
    alLookup k (alInsert k v l) = some v := by
  induction l with
  | nil => simp [alInsert, alLookup]
  | cons p rest ih =>
    obtain ⟨k2, v2⟩ := p
    by_cases h : k = k2
    · simp [alInsert, h, alLookup]
    · simp [alInsert, h, alLookup, ih]

theorem alLookup_alInsert_ne {α : Type} {k k2 : Nat} (v : α) (l : List (Nat × α))
    (h : k ≠ k2) : alLookup k (alInsert k2 v l) = alLookup k l := by
  induction l with
  | nil => simp [alInsert, alLookup, h]
  | cons p rest ih =>
    obtain ⟨k3, v3⟩ := p
    by_cases h2 : k2 = k3
    · subst h2
      simp [alInsert, alLookup, h]
    · by_cases h3 : k = k3
      · simp [alInsert, h2, alLookup, h3]
      · simp [alInsert, h2, alLookup, h3, ih]

theorem alLookup_alRemove_self {α : Type} (k : Nat) (l : List (Nat × α)) :
    alLookup k (alRemove k l) = none := by
  induction l with
  | nil => simp [alRemove, alLookup]
  | cons p rest ih =>
    obtain ⟨k2, v2⟩ := p
    by_cases h : k2 = k
    · simpa [alRemove, List.filter, h] using ih
    · have hne : k ≠ k2 := fun hk => h hk.symm
      simpa [alRemove, List.filter, h, alLookup, hne] using ih

theorem alLookup_append_left {α : Type} {k : Nat} {l1 : List (Nat × α)} (l2 : List (Nat × α))
    {v : α} (h : alLookup k l1 = some v) : alLookup k (l1 ++ l2) = some v := by
  induction l1 with
  | nil => simp [alLookup] at h
  | cons p rest ih =>
    obtain ⟨k2, v2⟩ := p
    by_cases h2 : k = k2
    · simp [alLookup, h2] at h ⊢
      exact h
    · simp [alLookup, h2] at h ⊢
      exact ih h

theorem alLookup_append_right {α : Type} {k : Nat} {l1 : List (Nat × α)} (l2 : List (Nat × α))
    (h : alLookup k l1 = none) : alLookup k (l1 ++ l2) = alLookup k l2 := by
  induction l1 with
  | nil => simp
  | cons p rest ih =>
    obtain ⟨k2, v2⟩ := p
    by_cases h2 : k = k2
    · simp [alLookup, h2] at h
    · simp [alLookup, h2] at h ⊢
      exact ih h

theorem foldl_bodies_only {β : Type} (g : SimulationState → β → SimulationState)
    (hg : ∀ s x, ∃ b, g s x = { s with bodies := b }) :
    ∀ (l : List β) (s : SimulationState), ∃ b, List.foldl g s l = { s with bodies := b } := by
  intro l
  induction l with
  | nil => intro s; exact ⟨s.bodies, rfl⟩
  | cons x rest ih =>
    intro s
    obtain ⟨b1, hb1⟩ := hg s x
    obtain ⟨b2, hb2⟩ := ih (g s x)
    refine ⟨b2, ?_⟩
    rw [List.foldl_cons, hb2, hb1]

theorem updateAnimations_shape (ev : KinematicAnimations → ℚ → Pose → Pose) (t : ℚ)
    (s : SimulationState) : ∃ b, updateAnimations ev t s = { s with bodies := b } := by
  unfold updateAnimations
  refine foldl_bodies_only _ ?_ s.body2animations s
  intro s2 p
  by_cases h : (p.2.linear.isNone && p.2.angular.isNone) = true
  · exact ⟨s2.bodies, by simp [h]⟩
  · cases halu : alLookup p.1 s2.bodies.bodies with
    | some rb =>
        exact ⟨{ bodies := alInsert p.1 { rb with next_kinematic_position := some (ev p.2 t rb.position) } s2.bodies.bodies, next_handle := s2.bodies.next_handle }, by simp [h, halu]⟩
    | none =>
        refine ⟨s2.bodies, ?_⟩
        simp [h, halu]

theorem updateAnimations_step_id (ev : KinematicAnimations → ℚ → Pose → Pose) (t : ℚ)
    (s : SimulationState) : (updateAnimations ev t s).step_id = s.step_id := by
  obtain ⟨b, hb⟩ := updateAnimations_shape ev t s
  rw [hb]

theorem updateAnimations_params (ev : KinematicAnimations → ℚ → Pose → Pose) (t : ℚ)
    (s : SimulationState) : (updateAnimations ev t s).params = s.params := by
  obtain ⟨b, hb⟩ := updateAnimations_shape ev t s
  rw [hb]

theorem stepOnce_step_id (ext : Externals) (s : SimulationState) :
    (stepOnce ext s).step_id = s.step_id + 1 := by
  unfold stepOnce
  rw [updateAnimations_step_id]
  rfl

theorem stepOnce_params (ext : Externals) (s : SimulationState) :
    (stepOnce ext s).params = s.params := by
  unfold stepOnce
  rw [updateAnimations_params]
  rfl

theorem runBatch_step_id (ext : Externals) :
    ∀ (n : Nat) (s : SimulationState), (runBatch ext n s).step_id = s.step_id + n := by
  intro n
  induction n with
  | zero => intro s; rfl
  | succ m ih =>
    intro s
    show (runBatch ext m (stepOnce ext s)).step_id = s.step_id + (m + 1)
    rw [ih, stepOnce_step_id]
    omega

theorem runBatch_params (ext : Externals) :
    ∀ (n : Nat) (s : SimulationState), (runBatch ext n s).params = s.params := by
  intro n
  induction n with
  | zero => intro s; rfl
  | succ m ih =>
    intro s
    show (runBatch ext m (stepOnce ext s)).params = s.params
    rw [ih, stepOnce_params]

/-- C1: the claim states that a RunSteps command sets the step id, advances
the world by the requested number of steps, refreshes the watch list,
persists one warm-set batch and sends one AckSteps.  The code instead hits
the todo panic in the RunSteps arm of process_message, for every state and
every argument pair, including the cited example of curr_step 100 and
num_steps 5: the process aborts and none of the claimed effects happen. -/
theorem runStepsCommandPanics (s : SimulationState) (curr_step num_steps : Nat) :
    process_message s (RunnerMessage.RunSteps curr_step num_steps) = Except.error () := rfl

/-- C8: the claim states that every command buffered before assignment is
replayed after the first AssignRegion with no command lost.  The buffering
itself happens in arrival order (first conjunct), but replay runs the
buffered commands through process_message, whose RunSteps arm is the todo
panic: on the concrete arrival stream C8in the startup aborts while
replaying the buffered RunSteps, and the buffered StartStop after it is
never applied. -/
theorem bufferedReplayAbortsOnRunSteps :
    (waitForAssignment SimulationState.init C8in).2.1 =
      [RunnerMessage.RunSteps 0 1, RunnerMessage.StartStop true] ∧
    (waitForAssignment SimulationState.init C8in).1.sim_bounds = 7 ∧
    (waitForAssignment SimulationState.init C8in).1.step_id = 5 ∧
    startupPhase SimulationState.init C8in = Except.error () := by
  refine ⟨rfl, rfl, rfl, rfl⟩

/-- C2 counterexample: the claim states that an AssignRegion processed while
a batch has pending steps clears the pending counter so that none of the
previous batch runs afterwards.  On the concrete loop state C2ls (2 pending
steps, AssignRegion with time origin 50 queued), draining the command
changes only the bounds and the step id of the simulation state (the
pending counter is loop-local and untouched), and the same tick then runs
the 2 leftover steps, leaving the step id at 52 instead of 50. -/
theorem assignRegionMidBatchCounterexample :
    process_message C2ls.sim (RunnerMessage.AssignRegion 9 50) =
      Except.ok { C2ls.sim with sim_bounds := 9, step_id := 50 } ∧
    C2ls.steps_to_run = 2 ∧
    tick Externals.base C2ls [] 99 = Except.ok C2out ∧
    C2out.1.sim.step_id = 52 := by
  refine ⟨rfl, rfl, by with_unfolding_all decide, by with_unfolding_all decide⟩

/-- C3 counterexample: the claim states that re-inserting a body with an
already-mapped uuid leaves no identity-map entry referring to the old
handle, with the two maps exact inverses.  Loading exBody (uuid 0) twice on
a fresh runner gives old handle 0 and new handle 1: afterwards body2uuid
still contains the stale entry mapping old handle 0 to uuid 0 while
uuid2body maps uuid 0 to handle 1, so the maps are not inverses and an
entry referring to the old handle remains. -/
theorem reinsertionStaleBody2uuidCounterexample :
    (process_message SimulationState.init (RunnerMessage.AssignIsland [exBody] [])).toOption.map
        (fun s1 => (alLookup 0 s1.uuid2body, alLookup 0 s1.body2uuid, s1.bodies.next_handle)) =
      some (some 0, some 0, 1) ∧
    (process_message exLoaded (RunnerMessage.AssignIsland [exBody] [])).toOption.map
        (fun s2 => (alLookup 0 s2.body2uuid, alLookup 0 s2.uuid2body)) =
      some (some 0, some 1) := by
  refine ⟨by with_unfolding_all decide, by with_unfolding_all decide⟩

/-- C9 counterexample: the claim states the loop sleeps iff the elapsed time
is under half of steps_run times the timestep, so a tick that ran zero
steps never sleeps.  On the concrete stopped loop state C9ls, the tick runs
zero physics steps yet emits a sleep of one full timestep (the code uses
max steps_run 1), while the rule as the spec words it emits no sleep at
zero steps. -/
theorem zeroStepTickSleepsCounterexample :
    tick Externals.base C9ls [] 0 = Except.ok C9out ∧
    sleepOutputsOf C9out.2 = [RunnerOutput.sleep (1 / 60)] ∧
    specSleepOutputs (1 / 60) 0 0 = [] := by
  refine ⟨by with_unfolding_all decide, by with_unfolding_all decide,
    by with_unfolding_all decide⟩

theorem insertIslandJoints_spec :
    ∀ (js : List ImpulseJointAssignment) (s : SimulationState),
      insertIslandJoints s js =
        { s with impulse_joints := js.foldl (jointFoldStep s.uuid2body) s.impulse_joints } := by
  intro js
  induction js with
  | nil => intro s; rfl
  | cons d rest ih =>
    intro s
    cases h1 : alLookup d.body1 s.uuid2body with
    | none =>
        have step : insertIslandJoints s (d :: rest) = insertIslandJoints s rest := by
          unfold insertIslandJoints
          simp only [List.foldl_cons, h1]
        rw [step, ih s]
        have step2 : jointFoldStep s.uuid2body s.impulse_joints d = s.impulse_joints := by
          unfold jointFoldStep
          simp only [h1]
        rw [List.foldl_cons, step2]
    | some a =>
        cases h2 : alLookup d.body2 s.uuid2body with
        | none =>
            have step : insertIslandJoints s (d :: rest) = insertIslandJoints s rest := by
              unfold insertIslandJoints
              simp only [List.foldl_cons, h1, h2]
            rw [step, ih s]
            have step2 : jointFoldStep s.uuid2body s.impulse_joints d = s.impulse_joints := by
              unfold jointFoldStep
              simp only [h1, h2]
            rw [List.foldl_cons, step2]
        | some b =>
            have step : insertIslandJoints s (d :: rest) =
                insertIslandJoints
                  { s with impulse_joints := s.impulse_joints.insert a b d.joint } rest := by
              unfold insertIslandJoints
              simp only [List.foldl_cons, h1, h2]
            have step2 : jointFoldStep s.uuid2body s.impulse_joints d =
                s.impulse_joints.insert a b d.joint := by
              unfold jointFoldStep
              simp only [h1, h2]
            rw [step, ih, List.foldl_cons, step2]

/-- C5: a joint listed in an AssignIsland command is inserted into the joint
arena iff both endpoint uuids resolve to local handles in the identity map
in force when the joint loop runs (the map after the body loop, which the
joint loop never modifies), and a dropped joint changes nothing at all: the
whole message effect equals the body-loop result with only the joint arena
folded by jointFoldStep. -/
theorem jointInsertionIffEndpointsResolve (s : SimulationState)
    (bodies : List AssignIslandBody) (joints : List ImpulseJointAssignment) :
    process_message s (RunnerMessage.AssignIsland bodies joints) =
      Except.ok { bodies.foldl insertIslandBody s with
        impulse_joints :=
          joints.foldl (jointFoldStep (bodies.foldl insertIslandBody s).uuid2body)
            (bodies.foldl insertIslandBody s).impulse_joints } := by
  show Except.ok (insertIslandJoints (bodies.foldl insertIslandBody s) joints) = _
  rw [insertIslandJoints_spec]

theorem insertIslandBody_uuid2body (s : SimulationState) (d : AssignIslandBody) :
    (insertIslandBody s d).uuid2body = alInsert d.uuid s.bodies.next_handle s.uuid2body := by
  unfold insertIslandBody
  cases h : alLookup d.uuid s.uuid2body with
  | none => simp only [h]; rfl
  | some handle => simp only [h]; rfl

theorem processBodies_lookup_preserved :
    ∀ (bodies : List AssignIslandBody) (s : SimulationState) (u : Uuid),
      (alLookup u s.uuid2body).isSome = true →
      (alLookup u (bodies.foldl insertIslandBody s).uuid2body).isSome = true := by
  intro bodies
  induction bodies with
  | nil => intro s u h; exact h
  | cons b rest ih =>
    intro s u h
    rw [List.foldl_cons]
    apply ih
    rw [insertIslandBody_uuid2body]
    by_cases hu : u = b.uuid
    · subst hu
      rw [alLookup_alInsert_self]
      rfl
    · rw [alLookup_alInsert_ne _ _ hu]
      exact h

theorem processBodies_mem_lookup :
    ∀ (bodies : List AssignIslandBody) (s : SimulationState) (u : Uuid),
      u ∈ bodies.map AssignIslandBody.uuid →
      (alLookup u (bodies.foldl insertIslandBody s).uuid2body).isSome = true := by
  intro bodies
  induction bodies with
  | nil => intro s u h; simp at h
  | cons b rest ih =>
    intro s u h
    rw [List.map_cons, List.mem_cons] at h
    rw [List.foldl_cons]
    cases h with
    | inl he =>
        apply processBodies_lookup_preserved
        rw [insertIslandBody_uuid2body, he, alLookup_alInsert_self]
        rfl
    | inr hm => exact ih _ u hm

theorem jointFold_mono :
    ∀ (js : List ImpulseJointAssignment) (u2b : List (Uuid × BodyHandle))
      (acc : ImpulseJointSet) (e : Nat × ImpulseJoint),
      e ∈ acc.joints → e ∈ (js.foldl (jointFoldStep u2b) acc).joints := by
  intro js
  induction js with
  | nil => intro _ acc e h; exact h
  | cons d rest ih =>
    intro u2b acc e h
    rw [List.foldl_cons]
    apply ih
    unfold jointFoldStep
    cases h1 : alLookup d.body1 u2b with
    | none => simp only [h1]; exact h
    | some a =>
      cases h2 : alLookup d.body2 u2b with
      | none => simp only [h1, h2]; exact h
      | some b =>
        simp only [h1, h2]
        exact List.mem_append_left _ h

theorem jointFold_inserts :
    ∀ (js : List ImpulseJointAssignment) (u2b : List (Uuid × BodyHandle))
      (acc : ImpulseJointSet) (j : ImpulseJointAssignment) (a b : BodyHandle),
      j ∈ js → alLookup j.body1 u2b = some a → alLookup j.body2 u2b = some b →
      ∃ k, (k, { body1 := a, body2 := b, data := j.joint }) ∈
        (js.foldl (jointFoldStep u2b) acc).joints := by
  intro js
  induction js with
  | nil => intro _ _ j a b h; simp at h
  | cons d rest ih =>
    intro u2b acc j a b hmem h1 h2
    rw [List.foldl_cons]
    rcases List.mem_cons.mp hmem with he | hm
    · subst he
      refine ⟨acc.next_handle, ?_⟩
      apply jointFold_mono
      unfold jointFoldStep
      simp only [h1, h2]
      exact List.mem_append_right _ (List.mem_singleton.mpr rfl)
    · exact ih _ _ j a b hm h1 h2

/-- C10: within one AssignIsland message every body is inserted (and its
identity recorded) before any joint is examined, so a joint referencing two
uuids delivered in the same message always resolves, whatever the relative
order of the bodies and joints arrays: both endpoints look up to handles in
the post-body-loop map and the joint lands in the arena. -/
theorem intraMessageJointsAlwaysResolve (s : SimulationState)
    (bodies : List AssignIslandBody) (joints : List ImpulseJointAssignment)
    (j : ImpulseJointAssignment)
    (hj : j ∈ joints)
    (h1 : j.body1 ∈ bodies.map AssignIslandBody.uuid)
    (h2 : j.body2 ∈ bodies.map AssignIslandBody.uuid) :
    ∃ a b k out,
      alLookup j.body1 (bodies.foldl insertIslandBody s).uuid2body = some a ∧
      alLookup j.body2 (bodies.foldl insertIslandBody s).uuid2body = some b ∧
      process_message s (RunnerMessage.AssignIsland bodies joints) = Except.ok out ∧
      (k, { body1 := a, body2 := b, data := j.joint }) ∈ out.impulse_joints.joints := by
  have hs1 := processBodies_mem_lookup bodies s j.body1 h1
  have hs2 := processBodies_mem_lookup bodies s j.body2 h2
  cases hl1 : alLookup j.body1 (bodies.foldl insertIslandBody s).uuid2body with
  | none => rw [hl1] at hs1; simp at hs1
  | some a =>
    cases hl2 : alLookup j.body2 (bodies.foldl insertIslandBody s).uuid2body with
    | none => rw [hl2] at hs2; simp at hs2
    | some b =>
      obtain ⟨k, hk⟩ := jointFold_inserts joints
        (bodies.foldl insertIslandBody s).uuid2body
        (bodies.foldl insertIslandBody s).impulse_joints j a b hj hl1 hl2
      refine ⟨a, b, k, insertIslandJoints (bodies.foldl insertIslandBody s) joints,
        rfl, rfl, rfl, ?_⟩
      rw [insertIslandJoints_spec]
      exact hk

/-- Witness for C10 at the concrete message C10bodies, C10joints on a fresh
runner: the joint between uuids 5 and 6 resolves and is inserted. -/
theorem intraMessageJointsAlwaysResolveWitness :
    ∃ a b k out,
      alLookup 5 (C10bodies.foldl insertIslandBody SimulationState.init).uuid2body = some a ∧
      alLookup 6 (C10bodies.foldl insertIslandBody SimulationState.init).uuid2body = some b ∧
      process_message SimulationState.init
        (RunnerMessage.AssignIsland C10bodies C10joints) = Except.ok out ∧
      (k, { body1 := a, body2 := b, data := 42 }) ∈ out.impulse_joints.joints :=
  intraMessageJointsAlwaysResolve SimulationState.init C10bodies C10joints
    { body1 := 5, body2 := 6, joint := 42 }
    (by with_unfolding_all decide) (by with_unfolding_all decide)
    (by with_unfolding_all decide)

theorem insertIslandBody_fields (s : SimulationState) (d : AssignIslandBody) (h : BodyHandle)
    (hlook : alLookup d.uuid s.uuid2body = some h) :
    (insertIslandBody s d).bodies.bodies =
      alRemove h s.bodies.bodies ++ [(s.bodies.next_handle, (make_builders d.cold d.warm).1)] ∧
    (insertIslandBody s d).colliders.colliders =
      ((s.colliders.colliders.filter (fun p => p.2.parent != some h)) ++
        [(s.colliders.next_handle,
          { shape := d.cold.shape, density := 1,
            collision_groups := InteractionGroups.allGroups,
            solver_groups := InteractionGroups.allGroups,
            parent := some s.bodies.next_handle })]) ++
        [(s.colliders.next_handle + 1,
          { shape := SharedShape.ball (d.cold.shape.localBoundingSphereRadius * (11 / 10)),
            density := 0,
            collision_groups := { memberships := WATCH_GROUP, filterMask := MAIN_GROUP },
            solver_groups := InteractionGroups.noGroups,
            parent := some s.bodies.next_handle })] ∧
    (insertIslandBody s d).impulse_joints.joints =
      s.impulse_joints.joints.filter (fun p => p.2.body1 != h && p.2.body2 != h) ∧
    (insertIslandBody s d).watched_objects = alRemove h s.watched_objects ∧
    (insertIslandBody s d).uuid2body = alInsert d.uuid s.bodies.next_handle s.uuid2body ∧
    (insertIslandBody s d).body2uuid = alInsert s.bodies.next_handle d.uuid s.body2uuid := by
  refine ⟨?_, ?_, ?_, ?_, ?_, ?_⟩ <;>
    (unfold insertIslandBody; simp only [hlook]; rfl)

/-- C3: amended.  Re-inserting a body whose uuid is already mapped does tear
down the old rigid body, its colliders, its joints and its watch entry, and
overwrites the uuid-to-handle entry with the fresh handle; but the
handle-to-uuid map is never cleaned, so the stale entry for the old handle
survives the re-insert and the two identity maps are no longer exact
inverses of each other. -/
theorem reinsertionTeardownAmended (s : SimulationState) (d : AssignIslandBody) (h : BodyHandle)
    (hlook : alLookup d.uuid s.uuid2body = some h)
    (hfresh : h < s.bodies.next_handle)
    (hmap : alLookup h s.body2uuid = some d.uuid) :
    alLookup h (insertIslandBody s d).bodies.bodies = none ∧
    (∀ p ∈ (insertIslandBody s d).colliders.colliders, p.2.parent ≠ some h) ∧
    (∀ p ∈ (insertIslandBody s d).impulse_joints.joints, p.2.body1 ≠ h ∧ p.2.body2 ≠ h) ∧
    alLookup h (insertIslandBody s d).watched_objects = none ∧
    alLookup d.uuid (insertIslandBody s d).uuid2body = some s.bodies.next_handle ∧
    s.bodies.next_handle ≠ h ∧
    alLookup h (insertIslandBody s d).body2uuid = some d.uuid := by
  obtain ⟨e1, e2, e3, e4, e5, e6⟩ := insertIslandBody_fields s d h hlook
  have hne : s.bodies.next_handle ≠ h := Nat.ne_of_gt hfresh
  have hne2 : h ≠ s.bodies.next_handle := fun hh => hne hh.symm
  refine ⟨?_, ?_, ?_, ?_, ?_, hne, ?_⟩
  · rw [e1, alLookup_append_right _ (alLookup_alRemove_self h s.bodies.bodies)]
    simp [alLookup, hne2]
  · intro p hp
    rw [e2] at hp
    rcases List.mem_append.mp hp with hp2 | hp2
    · rcases List.mem_append.mp hp2 with hp3 | hp3
      · have := List.of_mem_filter hp3
        simpa using this
      · rcases List.mem_singleton.mp hp3 with rfl
        simpa using fun hh => hne hh
    · rcases List.mem_singleton.mp hp2 with rfl
      simpa using fun hh => hne hh
  · intro p hp
    rw [e3] at hp
    have := List.of_mem_filter hp
    constructor
    · intro hh
      rw [Bool.and_eq_true] at this
      have hb := this.1
      rw [hh] at hb
      simp at hb
    · intro hh
      rw [Bool.and_eq_true] at this
      have hb := this.2
      rw [hh] at hb
      simp at hb
  · rw [e4]
    exact alLookup_alRemove_self h s.watched_objects
  · rw [e5]
    exact alLookup_alInsert_self d.uuid s.bodies.next_handle s.uuid2body
  · rw [e6, alLookup_alInsert_ne _ _ hne2]
    exact hmap

/-- Witness for the amended C3 at the concrete re-insertion of exBody into
exLoaded, where uuid 0 is mapped to the old handle 0. -/
theorem reinsertionTeardownAmendedWitness :
    alLookup 0 (insertIslandBody exLoaded exBody).bodies.bodies = none ∧
    (∀ p ∈ (insertIslandBody exLoaded exBody).colliders.colliders, p.2.parent ≠ some 0) ∧
    (∀ p ∈ (insertIslandBody exLoaded exBody).impulse_joints.joints,
      p.2.body1 ≠ 0 ∧ p.2.body2 ≠ 0) ∧
    alLookup 0 (insertIslandBody exLoaded exBody).watched_objects = none ∧
    alLookup exBody.uuid (insertIslandBody exLoaded exBody).uuid2body =
      some exLoaded.bodies.next_handle ∧
    exLoaded.bodies.next_handle ≠ 0 ∧
    alLookup 0 (insertIslandBody exLoaded exBody).body2uuid = some exBody.uuid :=
  reinsertionTeardownAmended exLoaded exBody 0
    (by with_unfolding_all decide) (by with_unfolding_all decide)
    (by with_unfolding_all decide)

/-- C7: every body loaded by AssignIsland gets exactly one additional
collider besides its primary one: a ball watch proxy whose radius is the
fixed multiple 11 / 10 (strictly above 1) of the local bounding-sphere
radius of the primary shape, with zero density, empty solver groups (its
solver pair test fails against every collider, so it neither exerts nor
receives forces), and collision groups membership WATCH_GROUP filtering
MAIN_GROUP, whose pair test against another watch proxy fails. -/
theorem watchProxyColliderProperties (s : SimulationState) (d : AssignIslandBody)
    (hpar : ∀ p ∈ s.colliders.colliders,
      ∀ hp, p.2.parent = some hp → hp < s.bodies.next_handle) :
    ((insertIslandBody s d).colliders.colliders.filter
        (fun p => p.2.parent == some s.bodies.next_handle)).map Prod.snd =
      [{ shape := d.cold.shape, density := 1,
         collision_groups := InteractionGroups.allGroups,
         solver_groups := InteractionGroups.allGroups,
         parent := some s.bodies.next_handle },
       { shape := SharedShape.ball (d.cold.shape.localBoundingSphereRadius * (11 / 10)),
         density := 0,
         collision_groups := { memberships := WATCH_GROUP, filterMask := MAIN_GROUP },
         solver_groups := InteractionGroups.noGroups,
         parent := some s.bodies.next_handle }] ∧
    (1 : ℚ) < 11 / 10 ∧
    (∀ g, InteractionGroups.test InteractionGroups.noGroups g = false) ∧
    InteractionGroups.test { memberships := WATCH_GROUP, filterMask := MAIN_GROUP }
      { memberships := WATCH_GROUP, filterMask := MAIN_GROUP } = false := by
  refine ⟨?_, by norm_num, ?_, by decide⟩
  · have hold : ∀ (l : List (Nat × Collider)),
        (∀ p ∈ l, ∀ hp, p.2.parent = some hp → hp < s.bodies.next_handle) →
        l.filter (fun p => p.2.parent == some s.bodies.next_handle) = [] := by
      intro l hl
      rw [List.filter_eq_nil_iff]
      intro p hp
      cases hpp : p.2.parent with
      | none => simp [hpp]
      | some hp2 =>
        have := hl p hp hp2 hpp
        simp [hpp]
        exact Nat.ne_of_lt this
    cases hre : alLookup d.uuid s.uuid2body with
    | none =>
      have ecol : (insertIslandBody s d).colliders.colliders =
          (s.colliders.colliders ++
            [(s.colliders.next_handle,
              { shape := d.cold.shape, density := 1,
                collision_groups := InteractionGroups.allGroups,
                solver_groups := InteractionGroups.allGroups,
                parent := some s.bodies.next_handle })]) ++
            [(s.colliders.next_handle + 1,
              { shape := SharedShape.ball (d.cold.shape.localBoundingSphereRadius * (11 / 10)),
                density := 0,
                collision_groups := { memberships := WATCH_GROUP, filterMask := MAIN_GROUP },
                solver_groups := InteractionGroups.noGroups,
                parent := some s.bodies.next_handle })] := by
        unfold insertIslandBody
        simp only [hre]
        rfl
      rw [ecol, List.filter_append, List.filter_append, hold _ hpar]
      simp [List.filter]
    | some handle =>
      obtain ⟨e1, e2, e3, e4, e5, e6⟩ := insertIslandBody_fields s d handle hre
      rw [e2, List.filter_append, List.filter_append, hold _ ?hsub]
      case hsub =>
        intro p hp
        exact hpar p (List.mem_of_mem_filter hp)
      simp [List.filter]
  · intro g
    have hz : Nat.land 0 g.filterMask = 0 := Nat.zero_and g.filterMask
    simp [InteractionGroups.test, InteractionGroups.noGroups, hz]

/-- Witness for C7: loading C7body (bounding radius 2) into a fresh runner
attaches exactly the primary collider and one ball watch proxy of radius
2 * 11 / 10 to the new body. -/
theorem watchProxyColliderPropertiesWitness :
    ((insertIslandBody SimulationState.init C7body).colliders.colliders.filter
        (fun p => p.2.parent == some SimulationState.init.bodies.next_handle)).map Prod.snd =
      [{ shape := C7body.cold.shape, density := 1,
         collision_groups := InteractionGroups.allGroups,
         solver_groups := InteractionGroups.allGroups,
         parent := some SimulationState.init.bodies.next_handle },
       { shape := SharedShape.ball (C7body.cold.shape.localBoundingSphereRadius * (11 / 10)),
         density := 0,
         collision_groups := { memberships := WATCH_GROUP, filterMask := MAIN_GROUP },
         solver_groups := InteractionGroups.noGroups,
         parent := some SimulationState.init.bodies.next_handle }] ∧
    (1 : ℚ) < 11 / 10 ∧
    (∀ g, InteractionGroups.test InteractionGroups.noGroups g = false) ∧
    InteractionGroups.test { memberships := WATCH_GROUP, filterMask := MAIN_GROUP }
      { memberships := WATCH_GROUP, filterMask := MAIN_GROUP } = false :=
  watchProxyColliderProperties SimulationState.init C7body
    (by intro p hp; simp [SimulationState.init] at hp)

theorem tickAfterDrain_queue (ext : Externals) (simd : SimulationState) (pending rk wid : Nat)
    (a : List RunnerMessage) (e : ℚ) :
    tickAfterDrain ext simd pending rk wid a e =
      (tickAfterDrain ext simd pending rk wid [] e).map
        (fun r => ({ r.1 with queue := a }, r.2)) := by
  unfold tickAfterDrain
  by_cases hp : pending = 0
  · simp [hp, Except.map]
  · simp only [hp, if_false]
    split
    · rfl
    · rfl

theorem tickAfterDrain_idle (ext : Externals) (simd : SimulationState) (rk wid : Nat)
    (a : List RunnerMessage) (e : ℚ) (out : LoopState × List RunnerOutput)
    (h : tickAfterDrain ext simd 0 rk wid a e = Except.ok out) :
    out.2 = [] ∧ out.1.sim = simd ∧ out.1.steps_to_run = 0 := by
  unfold tickAfterDrain at h
  simp only [if_pos rfl] at h
  cases h
  exact ⟨rfl, rfl, rfl⟩

theorem tickAfterDrain_batch_outputs (ext : Externals) (simd : SimulationState)
    (pending rk wid : Nat) (a : List RunnerMessage) (e : ℚ)
    (out : LoopState × List RunnerOutput)
    (hp : pending ≠ 0)
    (h : tickAfterDrain ext simd pending rk wid a e = Except.ok out) :
    ∃ (migr : List MigrationEvent) (allData : List BodyPositionObject)
      (watchData : List WatchedObject) (sleepTail : List RunnerOutput),
      out.2 = migr.map RunnerOutput.migration ++
        [RunnerOutput.putWarm out.1.sim.sim_bounds.runner_key
           { timestamp := out.1.sim.step_id, objects := allData },
         RunnerOutput.putWatch out.1.sim.sim_bounds.watch_kvs_key watchData] ++
        [RunnerOutput.ackSteps rk false] ++ sleepTail ∧
      (sleepTail = [] ∨ ∃ dur, sleepTail = [RunnerOutput.sleep dur]) ∧
      out.1.steps_to_run = 0 := by
  unfold tickAfterDrain at h
  rw [if_neg hp] at h
  split at h
  all_goals
    simp only [] at h
    split at h
    · simp at h
    · rename_i allData hbd
      cases h
      simp only [if_true]
      refine ⟨_, allData, _, _, rfl, ?_, by trivial⟩
      split
      · exact Or.inr ⟨_, rfl⟩
      · exact Or.inl rfl

theorem tickAfterDrain_queue_eq (ext : Externals) (simd : SimulationState) (pending rk wid : Nat)
    (a : List RunnerMessage) (e : ℚ) (out : LoopState × List RunnerOutput)
    (h : tickAfterDrain ext simd pending rk wid a e = Except.ok out) : out.1.queue = a := by
  rw [tickAfterDrain_queue] at h
  cases hq : tickAfterDrain ext simd pending rk wid [] e with
  | error er => rw [hq] at h; simp [Except.map] at h
  | ok r =>
      rw [hq] at h
      simp [Except.map] at h
      rw [← h]

theorem tickAfterDrain_sim (ext : Externals) (hl : ext.Lawful) (simd : SimulationState)
    (pending rk wid : Nat) (a : List RunnerMessage) (e : ℚ)
    (out : LoopState × List RunnerOutput)
    (hp : pending ≠ 0)
    (h : tickAfterDrain ext simd pending rk wid a e = Except.ok out) :
    out.1.sim.step_id = simd.step_id + (if simd.is_running then pending else 0) ∧
    out.1.sim.params = simd.params ∧
    out.1.steps_to_run = 0 := by
  unfold tickAfterDrain at h
  rw [if_neg hp] at h
  split at h
  · rename_i hr
    simp only [] at h
    split at h
    · simp at h
    · rename_i allData hbd
      cases h
      refine ⟨?_, ?_, rfl⟩
      · simp only [hr, if_true]
        rw [hl.applyRA_step_id, runBatch_step_id]
      · rw [hl.applyRA_params, runBatch_params]
  · rename_i hr
    simp only [] at h
    split at h
    · simp at h
    · rename_i allData hbd
      cases h
      refine ⟨?_, ?_, rfl⟩
      · rw [hl.applyRA_step_id]
        simp [hr]
      · rw [hl.applyRA_params]

theorem sleepOutputsOf_append (l1 l2 : List RunnerOutput) :
    sleepOutputsOf (l1 ++ l2) = sleepOutputsOf l1 ++ sleepOutputsOf l2 := by
  simp [sleepOutputsOf, List.filter_append]

theorem sleepOutputsOf_migrations (l : List MigrationEvent) :
    sleepOutputsOf (l.map RunnerOutput.migration) = [] := by
  induction l with
  | nil => rfl
  | cons x rest _ => simp [sleepOutputsOf, List.filter]

theorem tickAfterDrain_sleep (ext : Externals) (hl : ext.Lawful) (simd : SimulationState)
    (pending rk wid : Nat) (a : List RunnerMessage) (e : ℚ)
    (out : LoopState × List RunnerOutput)
    (hp : pending ≠ 0)
    (h : tickAfterDrain ext simd pending rk wid a e = Except.ok out) :
    sleepOutputsOf out.2 =
      (if e < (((max (if simd.is_running then pending else 0) 1 : Nat) : ℚ) *
          simd.params.dt) / 2 then
        [RunnerOutput.sleep ((((max (if simd.is_running then pending else 0) 1 : Nat) : ℚ) *
          simd.params.dt) - e)]
      else []) := by
  unfold tickAfterDrain at h
  rw [if_neg hp] at h
  split at h
  · rename_i hr
    simp only [] at h
    split at h
    · simp at h
    · rename_i allData hbd
      cases h
      simp only [hr, if_true]
      rw [sleepOutputsOf_append, sleepOutputsOf_append, sleepOutputsOf_append,
        sleepOutputsOf_migrations]
      simp only [hl.applyRA_params, runBatch_params]
      split
      · simp [sleepOutputsOf]
      · simp [sleepOutputsOf]
  · rename_i hr
    simp only [] at h
    split at h
    · simp at h
    · rename_i allData hbd
      cases h
      rw [sleepOutputsOf_append, sleepOutputsOf_append, sleepOutputsOf_append,
        sleepOutputsOf_migrations]
      simp only [hl.applyRA_params]
      simp only [hr, Bool.false_eq_true, if_false]
      split
      · simp [sleepOutputsOf]
      · simp [sleepOutputsOf]

/-- C6: on a tick with no pending steps the loop continues without any
outbound effect; on a tick that finishes a batch (pending nonzero) the
outputs are exactly some migration sends, then the warm-set write
(timestamped at the final step id) and the watch-list write, then exactly
one AckSteps, then at most a pacing sleep: one acknowledgment per completed
batch, never one per intermediate physics step, with both persistence
writes under the same condition immediately before it. -/
theorem ackExactlyOncePerBatch (ext : Externals) (ls : LoopState) (a : List RunnerMessage)
    (e : ℚ) (out : LoopState × List RunnerOutput)
    (h : tick ext ls a e = Except.ok out) :
    (ls.steps_to_run = 0 → out.2 = []) ∧
    (ls.steps_to_run ≠ 0 →
      ∃ (migr : List MigrationEvent) (allData : List BodyPositionObject)
        (watchData : List WatchedObject) (sleepTail : List RunnerOutput),
        out.2 = migr.map RunnerOutput.migration ++
          [RunnerOutput.putWarm out.1.sim.sim_bounds.runner_key
             { timestamp := out.1.sim.step_id, objects := allData },
           RunnerOutput.putWatch out.1.sim.sim_bounds.watch_kvs_key watchData] ++
          [RunnerOutput.ackSteps ls.runner_key false] ++ sleepTail ∧
        (sleepTail = [] ∨ ∃ dur, sleepTail = [RunnerOutput.sleep dur])) := by
  unfold tick at h
  cases hpa : processAll ls.sim ls.queue with
  | error er => rw [hpa] at h; simp at h
  | ok simd =>
    rw [hpa] at h
    constructor
    · intro hp
      rw [hp] at h
      exact (tickAfterDrain_idle ext simd ls.runner_key (ls.watch_iteration_id + 1) a e out h).1
    · intro hp
      obtain ⟨migr, allData, watchData, sleepTail, h1, h2, h3⟩ :=
        tickAfterDrain_batch_outputs ext simd ls.steps_to_run ls.runner_key
          (ls.watch_iteration_id + 1) a e out hp h
      exact ⟨migr, allData, watchData, sleepTail, h1, h2⟩

/-- Witness for C6: the batch tick on C6ls (3 pending steps) outputs the two
persistence writes then exactly one acknowledgment. -/
theorem ackExactlyOncePerBatchWitness :
    (C6ls.steps_to_run = 0 → C6out.2 = []) ∧
    (C6ls.steps_to_run ≠ 0 →
      ∃ (migr : List MigrationEvent) (allData : List BodyPositionObject)
        (watchData : List WatchedObject) (sleepTail : List RunnerOutput),
        C6out.2 = migr.map RunnerOutput.migration ++
          [RunnerOutput.putWarm C6out.1.sim.sim_bounds.runner_key
             { timestamp := C6out.1.sim.step_id, objects := allData },
           RunnerOutput.putWatch C6out.1.sim.sim_bounds.watch_kvs_key watchData] ++
          [RunnerOutput.ackSteps C6ls.runner_key false] ++ sleepTail ∧
        (sleepTail = [] ∨ ∃ dur, sleepTail = [RunnerOutput.sleep dur])) :=
  ackExactlyOncePerBatch Externals.base C6ls [] 1 C6out (by with_unfolding_all decide)

/-- C4: one main-loop tick drains and applies exactly the commands queued at
its start before any physics step runs (first conjunct: the tick is the
drain followed by the command-free tickAfterDrain, which has no message
input at all); the commands arriving while the tick runs are stored
verbatim, in order, as the next queue (second conjunct) and have no
influence on this tick, its stepping or its outputs (third conjunct). -/
theorem commandsApplyOnlyAtBatchBoundary (ext : Externals) (ls : LoopState)
    (a a2 : List RunnerMessage) (e : ℚ) :
    tick ext ls a e =
      (match processAll ls.sim ls.queue with
       | Except.error er => Except.error er
       | Except.ok simd =>
           tickAfterDrain ext simd ls.steps_to_run ls.runner_key
             (ls.watch_iteration_id + 1) a e) ∧
    (∀ out, tick ext ls a e = Except.ok out → out.1.queue = a) ∧
    (tick ext ls a e).map (fun r => (r.1.sim, r.1.steps_to_run, r.2)) =
      (tick ext ls a2 e).map (fun r => (r.1.sim, r.1.steps_to_run, r.2)) := by
  refine ⟨rfl, ?_, ?_⟩
  · intro out h
    unfold tick at h
    cases hpa : processAll ls.sim ls.queue with
    | error er => rw [hpa] at h; simp at h
    | ok simd =>
      rw [hpa] at h
      exact tickAfterDrain_queue_eq ext simd ls.steps_to_run ls.runner_key
        (ls.watch_iteration_id + 1) a e out h
  · unfold tick
    cases hpa : processAll ls.sim ls.queue with
    | error er => rfl
    | ok simd =>
      have hq := tickAfterDrain_queue ext simd ls.steps_to_run ls.runner_key
          (ls.watch_iteration_id + 1) a e
      have hq2 := tickAfterDrain_queue ext simd ls.steps_to_run ls.runner_key
          (ls.watch_iteration_id + 1) a2 e
      simp only [hq, hq2]
      cases tickAfterDrain ext simd ls.steps_to_run ls.runner_key
          (ls.watch_iteration_id + 1) [] e with
      | error er => rfl
      | ok r => rfl

/-- Witness for C4: the MoveObject that arrives during the C4ls tick is still
queued, untouched, when the tick ends. -/
theorem commandsApplyOnlyAtBatchBoundaryWitness :
    C4out.1.queue = [RunnerMessage.MoveObject] :=
  (commandsApplyOnlyAtBatchBoundary Externals.base C4ls [RunnerMessage.MoveObject] [] 99).2.1
    C4out (by with_unfolding_all decide)

/-- C2: amended.  Processing an AssignRegion replaces the region bounds and
resets the step id to the new time origin, but it does not (and cannot)
clear the loop-local pending step counter: on the tick that drains the
reassignment, any leftover pending steps of the previous batch still run
(when the region is running), advancing the step id from the new time
origin by the leftover count, after which the counter is exhausted. -/
theorem assignRegionDoesNotClearPending (ext : Externals) (hl : ext.Lawful)
    (sim : SimulationState) (r : SimulationBounds) (t n rk wid : Nat)
    (a : List RunnerMessage) (e : ℚ) (out : LoopState × List RunnerOutput)
    (h : tick ext ⟨sim, n, wid, rk, [RunnerMessage.AssignRegion r t]⟩ a e = Except.ok out) :
    process_message sim (RunnerMessage.AssignRegion r t) =
      Except.ok { sim with sim_bounds := r, step_id := t } ∧
    out.1.sim.step_id = t + (if sim.is_running = true ∧ n ≠ 0 then n else 0) ∧
    out.1.steps_to_run = 0 := by
  refine ⟨rfl, ?_⟩
  replace h : tickAfterDrain ext { sim with sim_bounds := r, step_id := t } n rk
      (wid + 1) a e = Except.ok out := h
  by_cases hn : n = 0
  · subst hn
    obtain ⟨_, hsim, hsteps⟩ :=
      tickAfterDrain_idle ext { sim with sim_bounds := r, step_id := t } rk (wid + 1) a e out h
    constructor
    · rw [hsim]
      simp
    · exact hsteps
  · obtain ⟨hstep, hparams, hsteps⟩ :=
      tickAfterDrain_sim ext hl { sim with sim_bounds := r, step_id := t } n rk
        (wid + 1) a e out hn h
    constructor
    · rw [hstep]
      by_cases hr : sim.is_running = true
      · simp [hr, hn]
      · simp [hr]
    · exact hsteps

/-- Witness for the amended C2 at the concrete reassignment scenario C2ls:
the 2 leftover steps still run, the step id ends at 52. -/
theorem assignRegionDoesNotClearPendingWitness :
    process_message { SimulationState.init with is_running := true }
        (RunnerMessage.AssignRegion 9 50) =
      Except.ok { { SimulationState.init with is_running := true } with
        sim_bounds := 9, step_id := 50 } ∧
    C2out.1.sim.step_id =
      50 + (if { SimulationState.init with is_running := true }.is_running = true ∧
          (2 : Nat) ≠ 0 then 2 else 0) ∧
    C2out.1.steps_to_run = 0 :=
  assignRegionDoesNotClearPending Externals.base Externals.base_lawful
    { SimulationState.init with is_running := true } 9 50 2 0 0 [] 99 C2out
    (by with_unfolding_all decide)

/-- C9: amended.  A tick with no pending steps never reaches the pacing code
and never sleeps; a tick that handled a batch sleeps iff the elapsed time
is under half of max(steps_run, 1) times the timestep (not steps_run times
the timestep as the spec words it), and then sleeps for the shortfall
relative to max(steps_run, 1) times the timestep; when the elapsed time
meets the threshold it does not sleep, so it never fast-forwards. -/
theorem sleepUsesMaxOfStepsRunAndOne (ext : Externals) (hl : ext.Lawful) (ls : LoopState)
    (a : List RunnerMessage) (e : ℚ) (out : LoopState × List RunnerOutput)
    (simd : SimulationState)
    (hd : processAll ls.sim ls.queue = Except.ok simd)
    (h : tick ext ls a e = Except.ok out) :
    (ls.steps_to_run = 0 → sleepOutputsOf out.2 = []) ∧
    (ls.steps_to_run ≠ 0 →
      sleepOutputsOf out.2 =
        (if e < (((max (if simd.is_running then ls.steps_to_run else 0) 1 : Nat) : ℚ) *
            simd.params.dt) / 2 then
          [RunnerOutput.sleep
            ((((max (if simd.is_running then ls.steps_to_run else 0) 1 : Nat) : ℚ) *
              simd.params.dt) - e)]
        else [])) := by
  unfold tick at h
  rw [hd] at h
  constructor
  · intro hp
    rw [hp] at h
    rw [(tickAfterDrain_idle ext simd ls.runner_key (ls.watch_iteration_id + 1) a e out h).1]
    rfl
  · intro hp
    exact tickAfterDrain_sleep ext hl simd ls.steps_to_run ls.runner_key
      (ls.watch_iteration_id + 1) a e out hp h

/-- Witness for the amended C9 at the concrete zero-step tick C9ls with
elapsed time 0. -/
theorem sleepUsesMaxOfStepsRunAndOneWitness :
    (C9ls.steps_to_run = 0 → sleepOutputsOf C9out.2 = []) ∧
    (C9ls.steps_to_run ≠ 0 →
      sleepOutputsOf C9out.2 =
        (if (0 : ℚ) < (((max (if C9ls.sim.is_running then C9ls.steps_to_run else 0) 1 :
            Nat) : ℚ) * C9ls.sim.params.dt) / 2 then
          [RunnerOutput.sleep
            ((((max (if C9ls.sim.is_running then C9ls.steps_to_run else 0) 1 : Nat) : ℚ) *
              C9ls.sim.params.dt) - 0)]
        else [])) :=
  sleepUsesMaxOfStepsRunAndOne Externals.base Externals.base_lawful C9ls [] 0 C9out
    C9ls.sim rfl (by with_unfolding_all decide)
